import Mathlib

/-!
Shallow embedding of the particle-simulation core of `src/components/ParticleScene.tsx`
(plus the small pieces of `src/types.ts` it consumes), together with proofs of the
frozen claims about it.

Conventions of the embedding:
* JavaScript numbers are modelled as real numbers (`ℝ`); all arithmetic that the
  source performs on finite doubles is exact here.
* `Math.random()` draws are modelled as explicit arguments: a stream `ℕ → ℝ`
  (consumed in call order) where several draws happen, or a single `ℝ` where one
  draw happens.  Theorems quantify over all streams with values in `[0,1)`.
* The TypeScript union type `ParticleShape` is a string at runtime and the code
  switches on string literals with a default branch, so `shape` is embedded as a
  `String`; the five literals are `"sphere" "cat" "flower" "fish" "star"`.
* Only state that feeds back into the simulation is kept in `Particle`
  (`position`, `velocity`, `basePosition`, the phase accumulator `t`); the
  instance matrix, render scale and rotation are presentation-only outputs.
-/

open Real

/-- A 3-component vector, standing for `THREE.Vector3`. -/
structure Vec3 where
  x : ℝ
  y : ℝ
  z : ℝ

/-- Euclidean magnitude of a `Vec3` (`THREE.Vector3.length`). -/
noncomputable def Vec3.mag (v : Vec3) : ℝ :=
  Real.sqrt (v.x ^ 2 + v.y ^ 2 + v.z ^ 2)

/-- Per-particle simulation state, from the `particles` array of
`ParticleScene.tsx` (lines 107-123): phase accumulator `t`, position `(x,y,z)`,
morphing home position `(baseX,baseY,baseZ)` and velocity `(vx,vy,vz)`. -/
structure Particle where
  t : ℝ
  x : ℝ
  y : ℝ
  z : ℝ
  baseX : ℝ
  baseY : ℝ
  baseZ : ℝ
  vx : ℝ
  vy : ℝ
  vz : ℝ

/-- `SongData.visualParams` from `src/types.ts`.  The shape is a string at
runtime (TypeScript erases the union type), matching the `switch` with a
default branch in the source. -/
structure VisualParams where
  chaos : ℝ
  speed : ℝ
  size : ℝ
  colorPalette : List String
  shape : String

/-- The part of `SongData` the simulation consumes. -/
structure SongData where
  visualParams : VisualParams

/-- `HandPosition` from `src/types.ts`. -/
structure HandPosition where
  x : ℝ
  y : ℝ
  isDetected : Bool

/-- `simpleNoise` (lines 9-11): `sin(x)*cos(y)*sin(z)`. -/
noncomputable def simpleNoise (x y z : ℝ) : ℝ :=
  Real.sin x * Real.cos y * Real.sin z

/-- `THREE.Vector3.setFromSphericalCoords(radius, phi, theta)`:
`x = sin(phi)*radius*sin(theta)`, `y = cos(phi)*radius`,
`z = sin(phi)*radius*cos(theta)`. -/
noncomputable def setFromSphericalCoords (radius phi theta : ℝ) : Vec3 :=
  ⟨Real.sin phi * radius * Real.sin theta,
   Real.cos phi * radius,
   Real.sin phi * radius * Real.cos theta⟩

/-- `getTargetPosition(i, count, shape)` (lines 19-96).  `rand` is the stream of
`Math.random()` results consumed by the chosen branch, in call order. -/
noncomputable def getTargetPosition (rand : ℕ → ℝ) (i count : ℕ) (shape : String) : Vec3 :=
  let frac : ℝ := (i : ℝ) / (count : ℝ)
  let phi : ℝ := Real.arccos (-1 + (2 * (i : ℝ)) / (count : ℝ))
  let theta : ℝ := Real.sqrt ((count : ℝ) * Real.pi) * phi
  if shape = "cat" then
    if frac < 0.35 then
      let p := setFromSphericalCoords 3 (phi * 2) theta
      { p with y := p.y + 3.5 }
    else if frac < 0.85 then
      let p := setFromSphericalCoords 4.5 phi theta
      { p with y := p.y - 2.5 }
    else if frac < 0.92 then
      ⟨-2 + rand 0, 6 + rand 1 * 2, rand 2⟩
    else
      ⟨2 + rand 0, 6 + rand 1 * 2, rand 2⟩
  else if shape = "flower" then
    let petalCount : ℝ := 6
    let flowerR : ℝ := 8 * |Real.cos (petalCount * 0.5 * theta)|
    let r : ℝ := rand 0 * flowerR + 2
    let z : ℝ := Real.sin r * 2
    ⟨r * Real.cos theta, r * Real.sin theta, z + (rand 1 - 0.5) * 2⟩
  else if shape = "fish" then
    let fishL : ℝ := (frac - 0.5) * 15
    let width : ℝ := Real.cos (fishL * 0.2) * 4
    let height : ℝ := Real.cos (fishL * 0.2) * 5
    if |fishL| < 7 then
      let angle : ℝ := rand 0 * Real.pi * 2
      let rad : ℝ := rand 1
      ⟨fishL, Real.cos angle * height * rad, Real.sin angle * width * rad⟩
    else
      ⟨fishL - 2, (rand 0 - 0.5) * 8, (rand 1 - 0.5) * 2⟩
  else if shape = "star" then
    let starR : ℝ := Real.rpow (rand 0) 0.3 * 12
    let p := setFromSphericalCoords starR phi theta
    if i % 20 = 0 then ⟨p.x * 1.5, p.y * 1.5, p.z * 1.5⟩ else p
  else
    setFromSphericalCoords 10 phi theta

/-- The morph update (lines 163-165): each base axis moves 3% of the way to
the target. -/
def morphStep (target b : Vec3) : Vec3 :=
  ⟨b.x + (target.x - b.x) * 0.03,
   b.y + (target.y - b.y) * 0.03,
   b.z + (target.z - b.z) * 0.03⟩

/-- The hand-interaction force block (lines 188-221), entered when the hand is
detected: returns the velocity after the shape-specific force is added.
`randP` is the `Math.random()` draw of the cat "purr jitter". -/
noncomputable def interactionVel (randP : ℝ) (shape : String) (handX handY : ℝ)
    (pos v : Vec3) : Vec3 :=
  let dx : ℝ := pos.x - handX
  let dy : ℝ := pos.y - handY
  let dz : ℝ := pos.z - 0
  let dist : ℝ := Real.sqrt (dx * dx + dy * dy + dz * dz)
  let radius : ℝ := 25
  if dist < radius then
    let influence : ℝ := 1 - dist / radius
    let power : ℝ := influence * influence
    if shape = "cat" ∧ dist < 8 then
      ⟨v.x - dx * 0.05 * power + (randP - 0.5) * 0.5 * power,
       v.y - dy * 0.05 * power,
       v.z - dz * 0.05 * power⟩
    else if shape = "flower" then
      ⟨v.x + dx * 0.1 * power, v.y + dy * 0.1 * power, v.z⟩
    else
      let swirlSpeed : ℝ := 0.8 * power
      let suction : ℝ := 0.5 * power
      ⟨v.x + (-dy * swirlSpeed * 0.1) - dx * suction * 0.1,
       v.y + dx * swirlSpeed * 0.1 - dy * suction * 0.1,
       v.z - dz * suction * 0.1⟩
  else v

/-- One per-frame update of one particle (the body of `particles.forEach` in
`useFrame`, lines 158-236): morph of the base position, phase advance, noise,
optional hand interaction, friction, spring and Euler integration.
`randT` feeds `getTargetPosition`; `randP` is the purr-jitter draw. -/
noncomputable def stepParticle (randT : ℕ → ℝ) (randP : ℝ) (params : VisualParams)
    (hand : HandPosition) (bass : ℝ) (count i : ℕ) (p : Particle) : Particle :=
  let target := getTargetPosition randT i count params.shape
  let base := morphStep target ⟨p.baseX, p.baseY, p.baseZ⟩
  let tNew : ℝ := p.t + params.speed * (0.005 + bass * 0.05)
  let ns0 : ℝ := params.chaos
  let ns1 : ℝ := if params.shape = "cat" then ns0 * 0.5 else ns0
  let noiseScale : ℝ := if params.shape = "fish" then ns1 * 1.5 else ns1
  let noiseX : ℝ := simpleNoise tNew (base.z * 0.1) (base.x * 0.1) * noiseScale * 5
  let noiseY : ℝ := simpleNoise (base.y * 0.1) tNew (base.z * 0.1) * noiseScale * 5
  let noiseZ : ℝ := simpleNoise (base.z * 0.1) (base.x * 0.1) tNew * noiseScale * 5
  let currentTargetX : ℝ := base.x + noiseX
  let currentTargetY : ℝ := base.y + noiseY
  let currentTargetZ : ℝ := base.z + noiseZ
  let handX : ℝ := hand.x * 30
  let handY : ℝ := hand.y * 20
  let v0 : Vec3 := ⟨p.vx, p.vy, p.vz⟩
  let v1 : Vec3 :=
    if hand.isDetected then interactionVel randP params.shape handX handY ⟨p.x, p.y, p.z⟩ v0
    else v0
  let v2 : Vec3 := ⟨v1.x * 0.92, v1.y * 0.92, v1.z * 0.92⟩
  let springStrength : ℝ := if hand.isDetected then 0.01 else 0.05
  let v3 : Vec3 := ⟨v2.x + (currentTargetX - p.x) * springStrength,
                    v2.y + (currentTargetY - p.y) * springStrength,
                    v2.z + (currentTargetZ - p.z) * springStrength⟩
  { t := tNew
    x := p.x + v3.x, y := p.y + v3.y, z := p.z + v3.z
    baseX := base.x, baseY := base.y, baseZ := base.z
    vx := v3.x, vy := v3.y, vz := v3.z }

/-- Division instrumented to fail (like a NaN-producing `0/0`) on a zero
denominator. -/
noncomputable def safeDiv (a b : ℝ) : Option ℝ :=
  if b = 0 then none else some (a / b)

/-- Square root instrumented to fail (like `Math.sqrt` of a negative, which is
NaN) on a negative argument. -/
noncomputable def safeSqrt (a : ℝ) : Option ℝ :=
  if a < 0 then none else some (Real.sqrt a)

/-- `interactionVel` with every partial numeric operation guarded: the square
root of the squared distance and the division by the interaction radius.
Evaluating to `some` certifies that no NaN/Infinity-producing operation
occurs in the interaction-force block. -/
noncomputable def interactionVelChk (randP : ℝ) (shape : String) (handX handY : ℝ)
    (pos v : Vec3) : Option Vec3 :=
  let dx : ℝ := pos.x - handX
  let dy : ℝ := pos.y - handY
  let dz : ℝ := pos.z - 0
  (safeSqrt (dx * dx + dy * dy + dz * dz)).bind fun dist =>
    let radius : ℝ := 25
    if dist < radius then
      (safeDiv dist radius).bind fun q =>
        let influence : ℝ := 1 - q
        let power : ℝ := influence * influence
        if shape = "cat" ∧ dist < 8 then
          some ⟨v.x - dx * 0.05 * power + (randP - 0.5) * 0.5 * power,
                v.y - dy * 0.05 * power,
                v.z - dz * 0.05 * power⟩
        else if shape = "flower" then
          some ⟨v.x + dx * 0.1 * power, v.y + dy * 0.1 * power, v.z⟩
        else
          let swirlSpeed : ℝ := 0.8 * power
          let suction : ℝ := 0.5 * power
          some ⟨v.x + (-dy * swirlSpeed * 0.1) - dx * suction * 0.1,
                v.y + dx * swirlSpeed * 0.1 - dy * suction * 0.1,
                v.z - dz * suction * 0.1⟩
    else some v

/-- `stepParticle` with the partial operations of the interaction block
guarded; `some` means the whole per-particle step evaluated without any
NaN/Infinity-producing operation. -/
noncomputable def stepParticleChk (randT : ℕ → ℝ) (randP : ℝ) (params : VisualParams)
    (hand : HandPosition) (bass : ℝ) (count i : ℕ) (p : Particle) : Option Particle :=
  let target := getTargetPosition randT i count params.shape
  let base := morphStep target ⟨p.baseX, p.baseY, p.baseZ⟩
  let tNew : ℝ := p.t + params.speed * (0.005 + bass * 0.05)
  let ns0 : ℝ := params.chaos
  let ns1 : ℝ := if params.shape = "cat" then ns0 * 0.5 else ns0
  let noiseScale : ℝ := if params.shape = "fish" then ns1 * 1.5 else ns1
  let noiseX : ℝ := simpleNoise tNew (base.z * 0.1) (base.x * 0.1) * noiseScale * 5
  let noiseY : ℝ := simpleNoise (base.y * 0.1) tNew (base.z * 0.1) * noiseScale * 5
  let noiseZ : ℝ := simpleNoise (base.z * 0.1) (base.x * 0.1) tNew * noiseScale * 5
  let currentTargetX : ℝ := base.x + noiseX
  let currentTargetY : ℝ := base.y + noiseY
  let currentTargetZ : ℝ := base.z + noiseZ
  let handX : ℝ := hand.x * 30
  let handY : ℝ := hand.y * 20
  let v0 : Vec3 := ⟨p.vx, p.vy, p.vz⟩
  let v1opt : Option Vec3 :=
    if hand.isDetected then interactionVelChk randP params.shape handX handY ⟨p.x, p.y, p.z⟩ v0
    else some v0
  v1opt.map fun v1 =>
    let v2 : Vec3 := ⟨v1.x * 0.92, v1.y * 0.92, v1.z * 0.92⟩
    let springStrength : ℝ := if hand.isDetected then 0.01 else 0.05
    let v3 : Vec3 := ⟨v2.x + (currentTargetX - p.x) * springStrength,
                      v2.y + (currentTargetY - p.y) * springStrength,
                      v2.z + (currentTargetZ - p.z) * springStrength⟩
    { t := tNew
      x := p.x + v3.x, y := p.y + v3.y, z := p.z + v3.z
      baseX := base.x, baseY := base.y, baseZ := base.z
      vx := v3.x, vy := v3.y, vz := v3.z }

/-- The color pick of the palette `useEffect` (line 132):
`Math.floor(Math.random() * colors.length)`. -/
noncomputable def pickColorIndex (r : ℝ) (len : ℕ) : ℕ :=
  (⌊r * (len : ℝ)⌋).toNat

/-- `colors[Math.floor(Math.random() * colors.length)]` for one particle:
`none` models the out-of-bounds `undefined` access that would crash the
subsequent `color.toArray`. -/
noncomputable def pickColor (r : ℝ) (palette : List String) : Option String :=
  palette.get? (pickColorIndex r palette.length)

/-- One whole frame of `useFrame` (lines 138-263) restricted to simulation
state: if `songData` is `null` the frame returns immediately and the particle
array is untouched; otherwise every particle is stepped.  `randT k`/`randP k`
are the random draws consumed while updating particle `k`. -/
noncomputable def frameStep (songData : Option SongData) (hand : HandPosition) (bass : ℝ)
    (randT : ℕ → ℕ → ℝ) (randP : ℕ → ℝ) (ps : List Particle) : List Particle :=
  match songData with
  | none => ps
  | some sd =>
      ps.mapIdx fun i p => stepParticle (randT i) (randP i) sd.visualParams hand bass ps.length i p

/-- `k` consecutive per-frame updates of one particle; frame `j` uses the draw
streams `randT j` and `randP j`. -/
noncomputable def stepN (randT : ℕ → ℕ → ℝ) (randP : ℕ → ℝ) (params : VisualParams)
    (hand : HandPosition) (bass : ℝ) (count i : ℕ) : ℕ → Particle → Particle
  | 0, p => p
  | k + 1, p => stepParticle (randT k) (randP k) params hand bass count i
      (stepN randT randP params hand bass count i k p)

/-- `k` applications of the morph update toward a fixed target. -/
def morphIter (target : Vec3) : ℕ → Vec3 → Vec3
  | 0, b => b
  | k + 1, b => morphStep target (morphIter target k b)

/-- The default (sphere) branch of `getTargetPosition`: the Fibonacci-sphere
point of radius 10 at index `i`. -/
noncomputable def sphereTarget (i count : ℕ) : Vec3 :=
  setFromSphericalCoords 10 (Real.arccos (-1 + (2 * (i : ℝ)) / (count : ℝ)))
    (Real.sqrt ((count : ℝ) * Real.pi) *
      Real.arccos (-1 + (2 * (i : ℝ)) / (count : ℝ)))

/-- One idle frame (sphere shape, `chaos = speed = 0`, pointer undetected,
`bass = 0`) of `stepParticle`, restricted to a single axis and written in
coordinates relative to the fixed target component: `(b, v, e)` are the base
offset, the velocity and the position offset from the target.  Morph by 3%,
friction 0.92, spring 0.05, Euler integration. -/
def Lstep (s : ℝ × ℝ × ℝ) : ℝ × ℝ × ℝ :=
  let b2 := 0.97 * s.1
  let v2 := 0.92 * s.2.1 + 0.05 * (b2 - s.2.2)
  (b2, v2, s.2.2 + v2)

/-- `k` iterations of `Lstep`. -/
def LiterN : ℕ → ℝ × ℝ × ℝ → ℝ × ℝ × ℝ
  | 0, s => s
  | k + 1, s => Lstep (LiterN k s)

/-- Scaled-integer companion of `Lstep`: if `(B, V, E)` is `10000 ^ k` times
the real state then `IStep (B, V, E)` is `10000 ^ (k + 1)` times the next
state (`0.97, 0.92, 0.05` become `9700, 9200, 485, 500` over the common
denominator `10000`). -/
def IStep (s : ℤ × ℤ × ℤ) : ℤ × ℤ × ℤ :=
  let b2 := 9700 * s.1
  let v2 := 9200 * s.2.1 + 485 * s.1 - 500 * s.2.2
  (b2, v2, 10000 * s.2.2 + v2)

/-- `k` iterations of `IStep`, by bare `Nat.rec` so the kernel can evaluate it
directly. -/
def iIter (k : ℕ) (s : ℤ × ℤ × ℤ) : ℤ × ℤ × ℤ :=
  Nat.rec s (fun _ ih => IStep ih) k

/-- A 3-by-3 integer matrix (`w` is the bottom-right entry), used to compute
powers of the scaled step `IStep` by repeated squaring. -/
structure M3 where
  a : ℤ
  b : ℤ
  c : ℤ
  d : ℤ
  e : ℤ
  f : ℤ
  g : ℤ
  h : ℤ
  w : ℤ

/-- Matrix product. -/
def Mmul (P Q : M3) : M3 :=
  ⟨P.a * Q.a + P.b * Q.d + P.c * Q.g, P.a * Q.b + P.b * Q.e + P.c * Q.h,
   P.a * Q.c + P.b * Q.f + P.c * Q.w,
   P.d * Q.a + P.e * Q.d + P.f * Q.g, P.d * Q.b + P.e * Q.e + P.f * Q.h,
   P.d * Q.c + P.e * Q.f + P.f * Q.w,
   P.g * Q.a + P.h * Q.d + P.w * Q.g, P.g * Q.b + P.h * Q.e + P.w * Q.h,
   P.g * Q.c + P.h * Q.f + P.w * Q.w⟩

/-- Matrix-vector product. -/
def Mv (P : M3) (s : ℤ × ℤ × ℤ) : ℤ × ℤ × ℤ :=
  (P.a * s.1 + P.b * s.2.1 + P.c * s.2.2,
   P.d * s.1 + P.e * s.2.1 + P.f * s.2.2,
   P.g * s.1 + P.h * s.2.1 + P.w * s.2.2)

/-- The matrix of the linear map `IStep`. -/
def Mstep : M3 := ⟨9700, 0, 0, 485, 9200, -500, 485, 9200, 9500⟩

/-- `Mstep ^ 2`. -/
def Mp2 : M3 := Mmul Mstep Mstep

/-- `Mstep ^ 4`. -/
def Mp4 : M3 := Mmul Mp2 Mp2

/-- `Mstep ^ 8`. -/
def Mp8 : M3 := Mmul Mp4 Mp4

/-- `Mstep ^ 16`. -/
def Mp16 : M3 := Mmul Mp8 Mp8

/-- `Mstep ^ 32`. -/
def Mp32 : M3 := Mmul Mp16 Mp16

/-- `Mstep ^ 64`. -/
def Mp64 : M3 := Mmul Mp32 Mp32

/-- `Mstep ^ 128`. -/
def Mp128 : M3 := Mmul Mp64 Mp64

/-- `Mstep ^ 256`. -/
def Mp256 : M3 := Mmul Mp128 Mp128

/-- `Mstep ^ 500` (`500 = 256 + 128 + 64 + 32 + 16 + 4`). -/
def Mp500 : M3 := Mmul (Mmul (Mmul (Mmul (Mmul Mp256 Mp128) Mp64) Mp32) Mp16) Mp4

/-! ## Claim theorems -/

/-- C9: if no parameter bundle has been provided yet (`songData` is `null`),
the per-frame step returns immediately and leaves every particle's position,
velocity, base position and phase accumulator unchanged, for every pointer
and audio input. -/
theorem frame_skip_when_no_song (hand : HandPosition) (bass : ℝ)
    (randT : ℕ → ℕ → ℝ) (randP : ℕ → ℝ) (ps : List Particle) :
    frameStep none hand bass randT randP ps = ps := rfl

/-- C10: for the sphere shape, and any unknown shape routed to the default
branch, `getTargetPosition` consults no random source and is deterministic:
any two draw streams give the identical vector, namely the spherical-coordinate
point of radius 10 with `phi = acos(-1 + 2*i/count)` and
`theta = sqrt(count*pi) * phi`. -/
theorem sphere_target_deterministic (s : String)
    (h1 : s ≠ "cat") (h2 : s ≠ "flower") (h3 : s ≠ "fish") (h4 : s ≠ "star")
    (r1 r2 : ℕ → ℝ) (i count : ℕ) :
    getTargetPosition r1 i count s = getTargetPosition r2 i count s ∧
    getTargetPosition r1 i count s =
      setFromSphericalCoords 10 (Real.arccos (-1 + (2 * (i : ℝ)) / (count : ℝ)))
        (Real.sqrt ((count : ℝ) * Real.pi) *
          Real.arccos (-1 + (2 * (i : ℝ)) / (count : ℝ))) := by
  constructor <;> simp [getTargetPosition, h1, h2, h3, h4]

/-- Witness for C10 at `s = "sphere"`, `i = 0`, `count = 1`. -/
theorem sphere_target_deterministic_witness :
    getTargetPosition (fun _ => 0) 0 1 "sphere" = getTargetPosition (fun _ => 1/2) 0 1 "sphere" ∧
    getTargetPosition (fun _ => 0) 0 1 "sphere" =
      setFromSphericalCoords 10 (Real.arccos (-1 + (2 * ((0 : ℕ) : ℝ)) / ((1 : ℕ) : ℝ)))
        (Real.sqrt (((1 : ℕ) : ℝ) * Real.pi) *
          Real.arccos (-1 + (2 * ((0 : ℕ) : ℝ)) / ((1 : ℕ) : ℝ))) :=
  sphere_target_deterministic "sphere" (by decide) (by decide) (by decide) (by decide)
    (fun _ => 0) (fun _ => 1/2) 0 1

/-- C7 counterexample: at `i = 29`, `count = 30` the body-axis coordinate is
`fishL = 7`, so `|fishL| ≤ 7` and the claim says the elliptical body (whose
x-coordinate is `fishL` itself) is sampled; the code instead takes the tail
branch, whose x-coordinate is `fishL - 2 = 5`. -/
theorem fish_boundary_counterexample :
    |(((29 : ℕ) : ℝ) / ((30 : ℕ) : ℝ) - 0.5) * 15| ≤ 7 ∧
    (getTargetPosition (fun _ => 1/2) 29 30 "fish").x = 5 ∧
    (5 : ℝ) ≠ (((29 : ℕ) : ℝ) / ((30 : ℕ) : ℝ) - 0.5) * 15 := by
  refine ⟨by norm_num, ?_, by norm_num⟩
  simp [getTargetPosition]
  norm_num

/-- C7 (amended): for `shape = fish`, the target samples the elliptical body
cross-section exactly when `|fishL| < 7` and the tail lobe exactly when
`|fishL| ≥ 7`, where `fishL = (i/count - 0.5) * 15`, for every `count` and
every `i ∈ [0, count)`. -/
theorem fish_branch_partition (rand : ℕ → ℝ) (i count : ℕ) (_hi : i < count) :
    ((|((i : ℝ) / (count : ℝ) - 0.5) * 15| < 7) →
      getTargetPosition rand i count "fish" =
        ⟨((i : ℝ) / (count : ℝ) - 0.5) * 15,
         Real.cos (rand 0 * Real.pi * 2) *
           (Real.cos ((((i : ℝ) / (count : ℝ) - 0.5) * 15) * 0.2) * 5) * rand 1,
         Real.sin (rand 0 * Real.pi * 2) *
           (Real.cos ((((i : ℝ) / (count : ℝ) - 0.5) * 15) * 0.2) * 4) * rand 1⟩) ∧
    ((7 ≤ |((i : ℝ) / (count : ℝ) - 0.5) * 15|) →
      getTargetPosition rand i count "fish" =
        ⟨((i : ℝ) / (count : ℝ) - 0.5) * 15 - 2,
         (rand 0 - 0.5) * 8, (rand 1 - 0.5) * 2⟩) := by
  constructor
  · intro h
    simp [getTargetPosition, h]
  · intro h
    simp [getTargetPosition, not_lt.2 h]

/-- Witness for C7 (amended) at `i = 0`, `count = 30`, constant draw `0`:
`fishL = -7.5`, the tail branch. -/
theorem fish_branch_partition_witness :
    getTargetPosition (fun _ => 0) 0 30 "fish" = ⟨-9.5, -4, -1⟩ := by
  have h := (fish_branch_partition (fun _ => 0) 0 30 (by norm_num)).2
    (le_abs.mpr (Or.inr (by norm_num)))
  rw [h]
  simp only [Vec3.mk.injEq]
  norm_num

/-- C5 counterexample: the step does not clamp out-of-range numeric fields
before use.  With `speed = 100` (documented range `[0.1, 2]`) and `bass = 0`
the phase accumulator advances by `100 * 0.005 = 0.5`; had the step clamped
`speed` to `2` it would have advanced by `0.01`. -/
theorem step_param_clamp_counterexample :
    (stepParticle (fun _ => 0) 0 ⟨0, 100, 1, [], "sphere"⟩ ⟨0, 0, false⟩ 0 1 0
        ⟨0, 0, 0, 0, 0, 0, 0, 0, 0, 0⟩).t = 0.5 ∧
    (stepParticle (fun _ => 0) 0 ⟨0, 2, 1, [], "sphere"⟩ ⟨0, 0, false⟩ 0 1 0
        ⟨0, 0, 0, 0, 0, 0, 0, 0, 0, 0⟩).t = 0.01 ∧
    (0.5 : ℝ) ≠ 0.01 := by
  refine ⟨?_, ?_, by norm_num⟩ <;> simp [stepParticle] <;> norm_num

/-- Each component of the `k`-fold morph toward a fixed target contracts the
offset from the target by `0.97` per frame. -/
theorem morphIter_offset (T b0 : Vec3) (k : ℕ) :
    (morphIter T k b0).x - T.x = 0.97 ^ k * (b0.x - T.x) ∧
    (morphIter T k b0).y - T.y = 0.97 ^ k * (b0.y - T.y) ∧
    (morphIter T k b0).z - T.z = 0.97 ^ k * (b0.z - T.z) := by
  induction k with
  | zero => simp [morphIter]
  | succ k ih =>
    obtain ⟨hx, hy, hz⟩ := ih
    refine ⟨?_, ?_, ?_⟩ <;>
      simp only [morphIter, morphStep, pow_succ] <;>
      [rw [show (morphIter T k b0).x = 0.97 ^ k * (b0.x - T.x) + T.x by linarith];
       rw [show (morphIter T k b0).y = 0.97 ^ k * (b0.y - T.y) + T.y by linarith];
       rw [show (morphIter T k b0).z = 0.97 ^ k * (b0.z - T.z) + T.z by linarith]] <;>
      ring

/-- C3: the per-frame step updates each base axis by
`basePosition += (target - basePosition) * 0.03`, and iterating that update `k`
frames toward a fixed target `T` scales the Euclidean distance of the base
position from `T` by exactly `0.97 ^ k`. -/
theorem morph_geometric_decay (randT : ℕ → ℝ) (randP : ℝ) (params : VisualParams)
    (hand : HandPosition) (bass : ℝ) (count i : ℕ) (p : Particle)
    (T b0 : Vec3) (k : ℕ) :
    ((stepParticle randT randP params hand bass count i p).baseX =
        p.baseX + ((getTargetPosition randT i count params.shape).x - p.baseX) * 0.03 ∧
      (stepParticle randT randP params hand bass count i p).baseY =
        p.baseY + ((getTargetPosition randT i count params.shape).y - p.baseY) * 0.03 ∧
      (stepParticle randT randP params hand bass count i p).baseZ =
        p.baseZ + ((getTargetPosition randT i count params.shape).z - p.baseZ) * 0.03) ∧
    Real.sqrt (((morphIter T k b0).x - T.x) ^ 2 + ((morphIter T k b0).y - T.y) ^ 2 +
        ((morphIter T k b0).z - T.z) ^ 2) =
      0.97 ^ k *
        Real.sqrt ((b0.x - T.x) ^ 2 + (b0.y - T.y) ^ 2 + (b0.z - T.z) ^ 2) := by
  constructor
  · refine ⟨?_, ?_, ?_⟩ <;> simp [stepParticle, morphStep]
  · obtain ⟨hx, hy, hz⟩ := morphIter_offset T b0 k
    have hsum : ((morphIter T k b0).x - T.x) ^ 2 + ((morphIter T k b0).y - T.y) ^ 2 +
        ((morphIter T k b0).z - T.z) ^ 2 =
        ((0.97 : ℝ) ^ k) ^ 2 * ((b0.x - T.x) ^ 2 + (b0.y - T.y) ^ 2 + (b0.z - T.z) ^ 2) := by
      rw [hx, hy, hz]; ring
    rw [hsum, Real.sqrt_mul (by positivity), Real.sqrt_sq (by positivity)]

/-- C6: when the pointer is detected and a particle sits at distance
`0 < dist < 25` from the pointer's world position, with shape sphere, fish or
star, the interaction block adds to the velocity exactly the tangential vortex
term `(-dy, dx, 0) * 0.8 * power * 0.1` plus the radial suction term
`-(dx, dy, dz) * 0.5 * power * 0.1`, where `influence = 1 - dist/25` and
`power = influence^2`. -/
theorem default_vortex_force_exact (randP : ℝ) (s : String)
    (hs : s = "sphere" ∨ s = "fish" ∨ s = "star")
    (handX handY dx dy dz dist influence power : ℝ) (pos v : Vec3)
    (hdx : dx = pos.x - handX) (hdy : dy = pos.y - handY) (hdz : dz = pos.z - 0)
    (hdist : dist = Real.sqrt (dx * dx + dy * dy + dz * dz))
    (hinf : influence = 1 - dist / 25) (hpow : power = influence * influence)
    (h0 : 0 < dist) (h25 : dist < 25) :
    interactionVel randP s handX handY pos v =
      ⟨v.x + (-dy) * 0.8 * power * 0.1 + -(dx * 0.5 * power * 0.1),
       v.y + dx * 0.8 * power * 0.1 + -(dy * 0.5 * power * 0.1),
       v.z + 0 * 0.8 * power * 0.1 + -(dz * 0.5 * power * 0.1)⟩ := by
  subst hdx hdy hdz hpow hinf hdist
  have hcat : ¬(s = "cat" ∧
      Real.sqrt ((pos.x - handX) * (pos.x - handX) + (pos.y - handY) * (pos.y - handY) +
        (pos.z - 0) * (pos.z - 0)) < 8) := by
    rcases hs with h | h | h <;> subst h <;> simp
  have hflower : ¬(s = "flower") := by
    rcases hs with h | h | h <;> subst h <;> simp
  simp only [interactionVel, if_pos h25, if_neg hcat, if_neg hflower, Vec3.mk.injEq]
  refine ⟨by ring, by ring, by ring⟩

/-- Witness for C6: particle at `(1, 0, 0)`, pointer world position at the
origin, shape `"sphere"`; `dist = 1`. -/
theorem default_vortex_force_exact_witness :
    interactionVel 0 "sphere" 0 0 ⟨1, 0, 0⟩ ⟨0, 0, 0⟩ =
      ⟨(0 : ℝ) + (-((0 : ℝ) - 0)) * 0.8 *
          ((1 - Real.sqrt (((1 : ℝ) - 0) * ((1 : ℝ) - 0) + ((0 : ℝ) - 0) * ((0 : ℝ) - 0) +
            ((0 : ℝ) - 0) * ((0 : ℝ) - 0)) / 25) *
           (1 - Real.sqrt (((1 : ℝ) - 0) * ((1 : ℝ) - 0) + ((0 : ℝ) - 0) * ((0 : ℝ) - 0) +
            ((0 : ℝ) - 0) * ((0 : ℝ) - 0)) / 25)) * 0.1 +
          -((((1 : ℝ) - 0)) * 0.5 *
          ((1 - Real.sqrt (((1 : ℝ) - 0) * ((1 : ℝ) - 0) + ((0 : ℝ) - 0) * ((0 : ℝ) - 0) +
            ((0 : ℝ) - 0) * ((0 : ℝ) - 0)) / 25) *
           (1 - Real.sqrt (((1 : ℝ) - 0) * ((1 : ℝ) - 0) + ((0 : ℝ) - 0) * ((0 : ℝ) - 0) +
            ((0 : ℝ) - 0) * ((0 : ℝ) - 0)) / 25)) * 0.1),
       (0 : ℝ) + ((1 : ℝ) - 0) * 0.8 *
          ((1 - Real.sqrt (((1 : ℝ) - 0) * ((1 : ℝ) - 0) + ((0 : ℝ) - 0) * ((0 : ℝ) - 0) +
            ((0 : ℝ) - 0) * ((0 : ℝ) - 0)) / 25) *
           (1 - Real.sqrt (((1 : ℝ) - 0) * ((1 : ℝ) - 0) + ((0 : ℝ) - 0) * ((0 : ℝ) - 0) +
            ((0 : ℝ) - 0) * ((0 : ℝ) - 0)) / 25)) * 0.1 +
          -((((0 : ℝ) - 0)) * 0.5 *
          ((1 - Real.sqrt (((1 : ℝ) - 0) * ((1 : ℝ) - 0) + ((0 : ℝ) - 0) * ((0 : ℝ) - 0) +
            ((0 : ℝ) - 0) * ((0 : ℝ) - 0)) / 25) *
           (1 - Real.sqrt (((1 : ℝ) - 0) * ((1 : ℝ) - 0) + ((0 : ℝ) - 0) * ((0 : ℝ) - 0) +
            ((0 : ℝ) - 0) * ((0 : ℝ) - 0)) / 25)) * 0.1),
       (0 : ℝ) + 0 * 0.8 *
          ((1 - Real.sqrt (((1 : ℝ) - 0) * ((1 : ℝ) - 0) + ((0 : ℝ) - 0) * ((0 : ℝ) - 0) +
            ((0 : ℝ) - 0) * ((0 : ℝ) - 0)) / 25) *
           (1 - Real.sqrt (((1 : ℝ) - 0) * ((1 : ℝ) - 0) + ((0 : ℝ) - 0) * ((0 : ℝ) - 0) +
            ((0 : ℝ) - 0) * ((0 : ℝ) - 0)) / 25)) * 0.1 +
          -((((0 : ℝ) - 0)) * 0.5 *
          ((1 - Real.sqrt (((1 : ℝ) - 0) * ((1 : ℝ) - 0) + ((0 : ℝ) - 0) * ((0 : ℝ) - 0) +
            ((0 : ℝ) - 0) * ((0 : ℝ) - 0)) / 25) *
           (1 - Real.sqrt (((1 : ℝ) - 0) * ((1 : ℝ) - 0) + ((0 : ℝ) - 0) * ((0 : ℝ) - 0) +
            ((0 : ℝ) - 0) * ((0 : ℝ) - 0)) / 25)) * 0.1)⟩ :=
  default_vortex_force_exact 0 "sphere" (Or.inl rfl) 0 0
    (1 - 0) (0 - 0) (0 - 0)
    (Real.sqrt (((1 : ℝ) - 0) * ((1 : ℝ) - 0) + ((0 : ℝ) - 0) * ((0 : ℝ) - 0) +
      ((0 : ℝ) - 0) * ((0 : ℝ) - 0)))
    (1 - Real.sqrt (((1 : ℝ) - 0) * ((1 : ℝ) - 0) + ((0 : ℝ) - 0) * ((0 : ℝ) - 0) +
      ((0 : ℝ) - 0) * ((0 : ℝ) - 0)) / 25)
    ((1 - Real.sqrt (((1 : ℝ) - 0) * ((1 : ℝ) - 0) + ((0 : ℝ) - 0) * ((0 : ℝ) - 0) +
      ((0 : ℝ) - 0) * ((0 : ℝ) - 0)) / 25) *
     (1 - Real.sqrt (((1 : ℝ) - 0) * ((1 : ℝ) - 0) + ((0 : ℝ) - 0) * ((0 : ℝ) - 0) +
      ((0 : ℝ) - 0) * ((0 : ℝ) - 0)) / 25))
    ⟨1, 0, 0⟩ ⟨0, 0, 0⟩ rfl rfl rfl rfl rfl rfl
    (by rw [show ((1 : ℝ) - 0) * ((1 : ℝ) - 0) + ((0 : ℝ) - 0) * ((0 : ℝ) - 0) +
        ((0 : ℝ) - 0) * ((0 : ℝ) - 0) = 1 by norm_num, Real.sqrt_one]; norm_num)
    (by rw [show ((1 : ℝ) - 0) * ((1 : ℝ) - 0) + ((0 : ℝ) - 0) * ((0 : ℝ) - 0) +
        ((0 : ℝ) - 0) * ((0 : ℝ) - 0) = 1 by norm_num, Real.sqrt_one]; norm_num)

/-- The guarded interaction block always succeeds and agrees with the
unguarded one: the only square root is of a sum of squares and the only
division is by the constant radius 25. -/
theorem interactionVelChk_eq_some (randP : ℝ) (shape : String) (handX handY : ℝ)
    (pos v : Vec3) :
    interactionVelChk randP shape handX handY pos v =
      some (interactionVel randP shape handX handY pos v) := by
  have harg : ¬((pos.x - handX) * (pos.x - handX) + (pos.y - handY) * (pos.y - handY) +
      (pos.z - 0) * (pos.z - 0) < 0) := by
    push_neg
    nlinarith [sq_nonneg (pos.x - handX), sq_nonneg (pos.y - handY), sq_nonneg (pos.z - 0)]
  simp only [interactionVelChk, interactionVel, safeSqrt, safeDiv, if_neg harg,
    Option.some_bind]
  split
  · rw [if_neg (by norm_num : ¬(25 : ℝ) = 0)]
    simp only [Option.some_bind]
    split_ifs <;> rfl
  · rfl

/-- The guarded per-particle step always succeeds and agrees with the
unguarded one. -/
theorem stepParticleChk_eq_some (randT : ℕ → ℝ) (randP : ℝ) (params : VisualParams)
    (hand : HandPosition) (bass : ℝ) (count i : ℕ) (p : Particle) :
    stepParticleChk randT randP params hand bass count i p =
      some (stepParticle randT randP params hand bass count i p) := by
  simp only [stepParticleChk, stepParticle, interactionVelChk_eq_some]
  cases hand.isDetected <;> simp

/-- C4: if the pointer is detected and a particle's position coincides exactly
with the pointer's world position (`dist = 0`), the per-frame step evaluates
with no NaN/Infinity-producing operation (the guarded step returns `some` of
the plain step): no division by zero occurs in the interaction-force
computation. -/
theorem step_dist_zero_no_nan (randT : ℕ → ℝ) (randP : ℝ) (params : VisualParams)
    (hand : HandPosition) (bass : ℝ) (count i : ℕ) (p : Particle)
    (_hact : hand.isDetected = true)
    (_hx : p.x = hand.x * 30) (_hy : p.y = hand.y * 20) (_hz : p.z = 0) :
    stepParticleChk randT randP params hand bass count i p =
      some (stepParticle randT randP params hand bass count i p) :=
  stepParticleChk_eq_some randT randP params hand bass count i p

/-- Witness for C4: particle exactly at the world position of a detected
pointer at the origin. -/
theorem step_dist_zero_no_nan_witness :
    stepParticleChk (fun _ => 0) 0 ⟨1, 1, 1, [], "sphere"⟩ ⟨0, 0, true⟩ 0 1 0
        ⟨0, 0, 0, 0, 0, 0, 0, 0, 0, 0⟩ =
      some (stepParticle (fun _ => 0) 0 ⟨1, 1, 1, [], "sphere"⟩ ⟨0, 0, true⟩ 0 1 0
        ⟨0, 0, 0, 0, 0, 0, 0, 0, 0, 0⟩) :=
  step_dist_zero_no_nan (fun _ => 0) 0 ⟨1, 1, 1, [], "sphere"⟩ ⟨0, 0, true⟩ 0 1 0
    ⟨0, 0, 0, 0, 0, 0, 0, 0, 0, 0⟩ rfl (by norm_num) (by norm_num) rfl

/-- An unknown shape string behaves exactly like the default sphere branch in
every shape-dependent part of the step. -/
theorem stepParticle_unknown_shape (s : String)
    (h1 : s ≠ "cat") (h2 : s ≠ "flower") (h3 : s ≠ "fish") (h4 : s ≠ "star")
    (chaos speed size : ℝ) (pal : List String) (randT : ℕ → ℝ) (randP : ℝ)
    (hand : HandPosition) (bass : ℝ) (count i : ℕ) (p : Particle) :
    stepParticle randT randP ⟨chaos, speed, size, pal, s⟩ hand bass count i p =
      stepParticle randT randP ⟨chaos, speed, size, pal, "sphere"⟩ hand bass count i p := by
  simp only [stepParticle, interactionVel, getTargetPosition]
  simp [h1, h2, h3, h4]

/-- C5 (amended): a malformed `VisualParams` never makes the step throw — the
guarded step returns `some` — and a shape outside the five literals is routed
to the default sphere branch, so the step behaves exactly as with
`shape = "sphere"`; the numeric fields, however, are used as-is, without being
clamped to their documented ranges (see the counterexample). -/
theorem step_malformed_params_safe (s : String)
    (h1 : s ≠ "cat") (h2 : s ≠ "flower") (h3 : s ≠ "fish") (h4 : s ≠ "star")
    (chaos speed size : ℝ) (pal : List String) (randT : ℕ → ℝ) (randP : ℝ)
    (hand : HandPosition) (bass : ℝ) (count i : ℕ) (p : Particle) :
    stepParticleChk randT randP ⟨chaos, speed, size, pal, s⟩ hand bass count i p =
      some (stepParticle randT randP ⟨chaos, speed, size, pal, "sphere"⟩ hand bass count i p) := by
  rw [stepParticleChk_eq_some,
    stepParticle_unknown_shape s h1 h2 h3 h4 chaos speed size pal randT randP hand bass count i p]

/-- Witness for C5 (amended) at the unknown shape `"banana"` and the
out-of-range numeric fields `chaos = 5`, `speed = 100`, `size = -3`. -/
theorem step_malformed_params_safe_witness :
    stepParticleChk (fun _ => 0) 0 ⟨5, 100, -3, [], "banana"⟩ ⟨0, 0, false⟩ 0 1 0
        ⟨0, 0, 0, 0, 0, 0, 0, 0, 0, 0⟩ =
      some (stepParticle (fun _ => 0) 0 ⟨5, 100, -3, [], "sphere"⟩ ⟨0, 0, false⟩ 0 1 0
        ⟨0, 0, 0, 0, 0, 0, 0, 0, 0, 0⟩) :=
  step_malformed_params_safe "banana" (by decide) (by decide) (by decide) (by decide)
    5 100 (-3) [] (fun _ => 0) 0 ⟨0, 0, false⟩ 0 1 0 ⟨0, 0, 0, 0, 0, 0, 0, 0, 0, 0⟩

/-- C8: for any palette of length ≥ 1 and any draw `r ∈ [0,1)`, the picked
color index is within the palette bounds, so the per-particle assignment
succeeds and yields a palette member; the index equals `j` exactly when `r`
falls in the equal-width subinterval `[j/len, (j+1)/len)` (the draw is uniform
over the palette); and a 1-entry palette always yields its single color. -/
theorem palette_pick_safe (palette : List String) (hlen : 1 ≤ palette.length)
    (r : ℝ) (h0 : 0 ≤ r) (h1 : r < 1) :
    pickColorIndex r palette.length < palette.length ∧
    (∃ c, pickColor r palette = some c ∧ c ∈ palette) ∧
    (∀ j : ℕ, pickColorIndex r palette.length = j ↔
      (j : ℝ) / (palette.length : ℝ) ≤ r ∧ r < ((j : ℝ) + 1) / (palette.length : ℝ)) ∧
    (palette.length = 1 → pickColor r palette = palette.get? 0) := by
  set n := palette.length with hn
  have hnpos : (0 : ℝ) < (n : ℝ) := by exact_mod_cast Nat.lt_of_lt_of_le Nat.zero_lt_one hlen
  have hfl0 : 0 ≤ ⌊r * (n : ℝ)⌋ := Int.floor_nonneg.mpr (by positivity)
  have hfllt : ⌊r * (n : ℝ)⌋ < (n : ℤ) := by
    rw [Int.floor_lt]
    push_cast
    nlinarith
  have hidx : pickColorIndex r n < n := by
    rw [pickColorIndex]
    omega
  refine ⟨hidx, ?_, ?_, ?_⟩
  · refine ⟨palette.get ⟨pickColorIndex r n, hidx⟩, ?_, palette.get_mem _ _⟩
    rw [pickColor, List.get?_eq_get hidx]
  · intro j
    have hiff : pickColorIndex r n = j ↔ ⌊r * (n : ℝ)⌋ = (j : ℤ) := by
      rw [pickColorIndex]
      omega
    rw [hiff, Int.floor_eq_iff]
    constructor
    · rintro ⟨ha, hb⟩
      constructor
      · rw [div_le_iff₀ hnpos]
        exact_mod_cast ha
      · rw [lt_div_iff₀ hnpos]
        exact_mod_cast hb
    · rintro ⟨ha, hb⟩
      constructor
      · rw [div_le_iff₀ hnpos] at ha
        exact_mod_cast ha
      · rw [lt_div_iff₀ hnpos] at hb
        exact_mod_cast hb
  · intro h1len
    have : pickColorIndex r n = 0 := by omega
    rw [pickColor, this]

/-- Witness for C8 at the 1-entry palette `["red"]` and draw `r = 1/2`. -/
theorem palette_pick_safe_witness :
    pickColorIndex (1/2) (["red"].length) < (["red"].length) ∧
    (∃ c, pickColor (1/2) ["red"] = some c ∧ c ∈ ["red"]) ∧
    (∀ j : ℕ, pickColorIndex (1/2) (["red"].length) = j ↔
      (j : ℝ) / ((["red"].length : ℕ) : ℝ) ≤ 1/2 ∧
        (1/2 : ℝ) < ((j : ℝ) + 1) / ((["red"].length : ℕ) : ℝ)) ∧
    ((["red"].length) = 1 → pickColor (1/2) ["red"] = ["red"].get? 0) :=
  palette_pick_safe ["red"] (by decide) (1/2) (by norm_num) (by norm_num)

/-- The spherical-coordinate point has squared magnitude `r ^ 2`. -/
theorem sph_sq_sum (r phi theta : ℝ) :
    (setFromSphericalCoords r phi theta).x ^ 2 + (setFromSphericalCoords r phi theta).y ^ 2 +
      (setFromSphericalCoords r phi theta).z ^ 2 = r ^ 2 := by
  simp only [setFromSphericalCoords]
  linear_combination (r ^ 2 * Real.sin phi ^ 2) * Real.sin_sq_add_cos_sq theta +
    r ^ 2 * Real.sin_sq_add_cos_sq phi

set_option maxHeartbeats 1600000 in
/-- C1: for every particle index `i < count`, every shape (in particular each
of the five literals), and every draw of the random source in `[0,1)`, the
target position is a (finite) vector of Euclidean magnitude strictly below
20. -/
theorem getTargetPosition_mag_lt_twenty (rand : ℕ → ℝ)
    (hr : ∀ n, 0 ≤ rand n ∧ rand n < 1) (i count : ℕ) (hi : i < count)
    (shape : String) :
    (getTargetPosition rand i count shape).mag < 20 := by
  obtain ⟨hr00, hr01⟩ := hr 0
  obtain ⟨hr10, hr11⟩ := hr 1
  obtain ⟨hr20, hr21⟩ := hr 2
  have hcount : (0 : ℝ) < (count : ℝ) := by
    exact_mod_cast Nat.pos_of_ne_zero (by omega)
  have hfrac0 : (0 : ℝ) ≤ (i : ℝ) / (count : ℝ) := by positivity
  have hfrac1 : (i : ℝ) / (count : ℝ) < 1 := (div_lt_one hcount).mpr (by exact_mod_cast hi)
  rw [Vec3.mag, Real.sqrt_lt' (by norm_num : (0 : ℝ) < 20)]
  simp only [getTargetPosition, setFromSphericalCoords]
  set phi := Real.arccos (-1 + (2 * (i : ℝ)) / (count : ℝ)) with hphi
  set theta := Real.sqrt ((count : ℝ) * Real.pi) * phi with htheta
  split_ifs with hcat h35 h85 h92 hflower hfish h7 hstar h20
  · -- cat head
    dsimp only
    nlinarith [Real.sin_sq_add_cos_sq theta, Real.sin_sq_add_cos_sq (phi * 2),
      Real.neg_one_le_cos (phi * 2), Real.cos_le_one (phi * 2),
      sq_nonneg (Real.sin (phi * 2))]
  · -- cat body
    dsimp only
    nlinarith [Real.sin_sq_add_cos_sq theta, Real.sin_sq_add_cos_sq phi,
      Real.neg_one_le_cos phi, Real.cos_le_one phi, sq_nonneg (Real.sin phi)]
  · -- cat left ear
    dsimp only
    nlinarith [hr00, hr01, hr10, hr11, hr20, hr21]
  · -- cat right ear
    dsimp only
    nlinarith [hr00, hr01, hr10, hr11, hr20, hr21]
  · -- flower
    dsimp only
    have hc0 : (0 : ℝ) ≤ |Real.cos (6 * 0.5 * theta)| := abs_nonneg _
    have hc1 : |Real.cos (6 * 0.5 * theta)| ≤ 1 := abs_cos_le_one _
    have hflR8 : rand 0 * (8 * |Real.cos (6 * 0.5 * theta)|) ≤ 8 := by nlinarith
    have h8 : 0 ≤ rand 0 * (8 * |Real.cos (6 * 0.5 * theta)|) := by positivity
    generalize hRg : rand 0 * (8 * |Real.cos (6 * 0.5 * theta)|) + 2 = R
    have hR2 : (2 : ℝ) ≤ R := by rw [← hRg]; linarith
    have hR10 : R ≤ 10 := by rw [← hRg]; linarith
    have hxy : (R * Real.cos theta) ^ 2 + (R * Real.sin theta) ^ 2 = R ^ 2 := by
      linear_combination R ^ 2 * Real.sin_sq_add_cos_sq theta
    have hz3 : Real.sin R * 2 + (rand 1 - 0.5) * 2 ≤ 3 := by
      nlinarith [Real.sin_le_one R]
    have hz3n : -3 ≤ Real.sin R * 2 + (rand 1 - 0.5) * 2 := by
      nlinarith [Real.neg_one_le_sin R]
    have hz : (Real.sin R * 2 + (rand 1 - 0.5) * 2) ^ 2 ≤ 9 := by nlinarith [hz3, hz3n]
    have hR100 : R ^ 2 ≤ 100 := by nlinarith [hR2, hR10]
    linarith [hxy, hz, hR100]
  · -- fish body
    dsimp only
    have habs := abs_lt.mp h7
    set cA := Real.cos (rand 0 * Real.pi * 2) with hcadef
    set sA := Real.sin (rand 0 * Real.pi * 2) with hsadef
    set cF := Real.cos (((i : ℝ) / (count : ℝ) - 0.5) * 15 * 0.2) with hcfdef
    have hr1sq : rand 1 ^ 2 ≤ 1 := by nlinarith
    have hcA : cA ^ 2 ≤ 1 := Real.cos_sq_le_one _
    have hsA : sA ^ 2 ≤ 1 := Real.sin_sq_le_one _
    have hcF : cF ^ 2 ≤ 1 := Real.cos_sq_le_one _
    have k1 : 0 ≤ (1 - cA ^ 2) * cF ^ 2 := mul_nonneg (by linarith) (sq_nonneg _)
    have k1s : 0 ≤ (1 - sA ^ 2) * cF ^ 2 := mul_nonneg (by linarith) (sq_nonneg _)
    have hAB : (cA * cF) ^ 2 ≤ 1 := by nlinarith [k1, hcF]
    have hABs : (sA * cF) ^ 2 ≤ 1 := by nlinarith [k1s, hcF]
    have k2 : 0 ≤ (1 - (cA * cF) ^ 2) * rand 1 ^ 2 := mul_nonneg (by linarith) (sq_nonneg _)
    have k2s : 0 ≤ (1 - (sA * cF) ^ 2) * rand 1 ^ 2 := mul_nonneg (by linarith) (sq_nonneg _)
    have hy1 : (cA * cF * rand 1) ^ 2 ≤ 1 := by nlinarith [k2, hr1sq]
    have hz1 : (sA * cF * rand 1) ^ 2 ≤ 1 := by nlinarith [k2s, hr1sq]
    nlinarith [hy1, hz1, habs.1, habs.2]
  · -- fish tail
    dsimp only
    have hL1 : ((i : ℝ) / (count : ℝ) - 0.5) * 15 - 2 < 5.5 := by nlinarith
    have hL2 : (-9.5 : ℝ) ≤ ((i : ℝ) / (count : ℝ) - 0.5) * 15 - 2 := by nlinarith
    have hsq1 : (((i : ℝ) / (count : ℝ) - 0.5) * 15 - 2) ^ 2 ≤ 90.25 := by nlinarith
    have hsq2 : ((rand 0 - 0.5) * 8) ^ 2 ≤ 16 := by nlinarith
    have hsq3 : ((rand 1 - 0.5) * 2) ^ 2 ≤ 1 := by nlinarith
    nlinarith [hsq1, hsq2, hsq3]
  · -- star with spike
    dsimp only
    have hs0 : 0 ≤ Real.rpow (rand 0) 0.3 := Real.rpow_nonneg hr00 _
    have hs1 : Real.rpow (rand 0) 0.3 ≤ 1 := Real.rpow_le_one hr00 hr01.le (by norm_num)
    have hsph := sph_sq_sum (Real.rpow (rand 0) 0.3 * 12) phi theta
    simp only [setFromSphericalCoords] at hsph
    nlinarith [hsph, hs0, hs1]
  · -- star without spike
    dsimp only
    have hs0 : 0 ≤ Real.rpow (rand 0) 0.3 := Real.rpow_nonneg hr00 _
    have hs1 : Real.rpow (rand 0) 0.3 ≤ 1 := Real.rpow_le_one hr00 hr01.le (by norm_num)
    have hsph := sph_sq_sum (Real.rpow (rand 0) 0.3 * 12) phi theta
    simp only [setFromSphericalCoords] at hsph
    nlinarith [hsph, hs0, hs1]
  · -- default sphere
    dsimp only
    have hsph := sph_sq_sum 10 phi theta
    simp only [setFromSphericalCoords] at hsph
    linarith

/-- Witness for C1 at `i = 0`, `count = 1`, `shape = "star"`, constant draw
`1/2`. -/
theorem getTargetPosition_mag_lt_twenty_witness :
    (getTargetPosition (fun _ => 1/2) 0 1 "star").mag < 20 :=
  getTargetPosition_mag_lt_twenty (fun _ => 1/2) (fun _ => ⟨by norm_num, by norm_num⟩)
    0 1 (by norm_num) "star"

/-- `iIter` at zero. -/
theorem iIter_zero (s : ℤ × ℤ × ℤ) : iIter 0 s = s := rfl

/-- `iIter` at a successor. -/
theorem iIter_succ (k : ℕ) (s : ℤ × ℤ × ℤ) : iIter (k + 1) s = IStep (iIter k s) := rfl

/-- `Lstep` is linear. -/
theorem Lstep_linear (a c : ℝ) (s t : ℝ × ℝ × ℝ) :
    Lstep (a * s.1 + c * t.1, a * s.2.1 + c * t.2.1, a * s.2.2 + c * t.2.2) =
      (a * (Lstep s).1 + c * (Lstep t).1,
       a * (Lstep s).2.1 + c * (Lstep t).2.1,
       a * (Lstep s).2.2 + c * (Lstep t).2.2) := by
  simp only [Lstep]
  refine Prod.ext ?_ (Prod.ext ?_ ?_) <;> dsimp only <;> ring

/-- Iterates of `Lstep` are linear. -/
theorem LiterN_linear (k : ℕ) (a c : ℝ) (s t : ℝ × ℝ × ℝ) :
    LiterN k (a * s.1 + c * t.1, a * s.2.1 + c * t.2.1, a * s.2.2 + c * t.2.2) =
      (a * (LiterN k s).1 + c * (LiterN k t).1,
       a * (LiterN k s).2.1 + c * (LiterN k t).2.1,
       a * (LiterN k s).2.2 + c * (LiterN k t).2.2) := by
  induction k with
  | zero => rfl
  | succ k ih =>
    show Lstep (LiterN k _) = _
    rw [ih, Lstep_linear]
    rfl

/-- The real iterates of `Lstep` from an integer start are the integer
iterates of `IStep` divided by `10000 ^ k`. -/
theorem LiterN_int (k : ℕ) (B V E : ℤ) :
    LiterN k ((B : ℝ), (V : ℝ), (E : ℝ)) =
      (((iIter k (B, V, E)).1 : ℝ) / 10000 ^ k,
       ((iIter k (B, V, E)).2.1 : ℝ) / 10000 ^ k,
       ((iIter k (B, V, E)).2.2 : ℝ) / 10000 ^ k) := by
  induction k with
  | zero => simp [LiterN, iIter_zero]
  | succ k ih =>
    show Lstep (LiterN k _) = _
    rw [ih, iIter_succ]
    obtain ⟨B1, V1, E1⟩ := iIter k (B, V, E)
    simp only [Lstep, IStep]
    refine Prod.ext ?_ (Prod.ext ?_ ?_) <;> dsimp only <;> push_cast <;>
      field_simp <;> ring

/-- Splitting iterates of `IStep`. -/
theorem iIter_add (a b : ℕ) (s : ℤ × ℤ × ℤ) : iIter (a + b) s = iIter a (iIter b s) := by
  induction a with
  | zero => rw [Nat.zero_add]; rfl
  | succ a ih =>
    rw [Nat.succ_add]
    show IStep (iIter (a + b) s) = IStep (iIter a (iIter b s))
    rw [ih]

/-- Matrix-vector product respects matrix product. -/
theorem Mv_mul (P Q : M3) (s : ℤ × ℤ × ℤ) : Mv (Mmul P Q) s = Mv P (Mv Q s) := by
  simp only [Mv, Mmul]
  refine Prod.ext ?_ (Prod.ext ?_ ?_) <;> dsimp only <;> ring

/-- `IStep` is the linear map of `Mstep`. -/
theorem IStep_Mv (s : ℤ × ℤ × ℤ) : IStep s = Mv Mstep s := by
  simp only [IStep, Mv, Mstep]
  refine Prod.ext ?_ (Prod.ext ?_ ?_) <;> dsimp only <;> ring

/-- Doubling step for iterates of `IStep` as matrix powers. -/
theorem iIter_double (m : ℕ) (A : M3) (hm : ∀ s, iIter m s = Mv A s) (s : ℤ × ℤ × ℤ) :
    iIter (m + m) s = Mv (Mmul A A) s := by
  rw [iIter_add, hm, hm, ← Mv_mul]

/-- One scaled step as a matrix action. -/
theorem iIter_one_Mv (s : ℤ × ℤ × ℤ) : iIter 1 s = Mv Mstep s := IStep_Mv s

/-- Two scaled steps. -/
theorem iIter_two_Mv (s : ℤ × ℤ × ℤ) : iIter 2 s = Mv Mp2 s :=
  iIter_double 1 Mstep iIter_one_Mv s

/-- Four scaled steps. -/
theorem iIter_four_Mv (s : ℤ × ℤ × ℤ) : iIter 4 s = Mv Mp4 s :=
  iIter_double 2 Mp2 iIter_two_Mv s

/-- Eight scaled steps. -/
theorem iIter_eight_Mv (s : ℤ × ℤ × ℤ) : iIter 8 s = Mv Mp8 s :=
  iIter_double 4 Mp4 iIter_four_Mv s

/-- Sixteen scaled steps. -/
theorem iIter_sixteen_Mv (s : ℤ × ℤ × ℤ) : iIter 16 s = Mv Mp16 s :=
  iIter_double 8 Mp8 iIter_eight_Mv s

/-- 32 scaled steps. -/
theorem iIter_32_Mv (s : ℤ × ℤ × ℤ) : iIter 32 s = Mv Mp32 s :=
  iIter_double 16 Mp16 iIter_sixteen_Mv s

/-- 64 scaled steps. -/
theorem iIter_64_Mv (s : ℤ × ℤ × ℤ) : iIter 64 s = Mv Mp64 s :=
  iIter_double 32 Mp32 iIter_32_Mv s

/-- 128 scaled steps. -/
theorem iIter_128_Mv (s : ℤ × ℤ × ℤ) : iIter 128 s = Mv Mp128 s :=
  iIter_double 64 Mp64 iIter_64_Mv s

/-- 256 scaled steps. -/
theorem iIter_256_Mv (s : ℤ × ℤ × ℤ) : iIter 256 s = Mv Mp256 s :=
  iIter_double 128 Mp128 iIter_128_Mv s

/-- 500 scaled steps as one matrix action. -/
theorem iIter_500_Mv (s : ℤ × ℤ × ℤ) : iIter 500 s = Mv Mp500 s := by
  have h500 : (500 : ℕ) = 256 + (128 + (64 + (32 + (16 + 4)))) := by norm_num
  rw [h500, iIter_add, iIter_add, iIter_add, iIter_add, iIter_add,
    iIter_four_Mv, iIter_sixteen_Mv, iIter_32_Mv, iIter_64_Mv, iIter_128_Mv, iIter_256_Mv,
    ← Mv_mul, ← Mv_mul, ← Mv_mul, ← Mv_mul, ← Mv_mul]
  rw [show Mp500 = Mmul (Mmul (Mmul (Mmul (Mmul Mp256 Mp128) Mp64) Mp32) Mp16) Mp4 from rfl]

set_option exponentiation.threshold 3000 in
/-- The two position-offset coefficients of 500 scaled steps are small:
`20 * |coefficient of b0| + 35 * |coefficient of e0| ≤ 10 ^ 1997` over the
denominator `10000 ^ 500 = 10 ^ 2000`, i.e. the combined contribution is at
most `10 ^ (-3)`. -/
theorem iIter_coeff_bound :
    20 * ((Mv Mp500 (1, 0, 0)).2.2).natAbs + 35 * ((Mv Mp500 (0, 0, 1)).2.2).natAbs
      ≤ 10 ^ 1997 := by decide

/-- Under the C2 idle conditions (sphere shape, `chaos = 0`, `speed = 0`,
pointer undetected, `bass = 0`), one particle step leaves the phase unchanged
and acts on each axis as the linear morph-friction-spring step `Lstep`, in
coordinates relative to the fixed sphere target. -/
theorem stepParticle_idle_sphere (randT : ℕ → ℝ) (randP : ℝ) (size : ℝ)
    (pal : List String) (hx0 hy0 : ℝ) (count i : ℕ) (p : Particle) :
    (stepParticle randT randP ⟨0, 0, size, pal, "sphere"⟩ ⟨hx0, hy0, false⟩ 0 count i p).t =
      p.t ∧
    ((stepParticle randT randP ⟨0, 0, size, pal, "sphere"⟩ ⟨hx0, hy0, false⟩ 0 count i
          p).baseX - (sphereTarget i count).x,
     (stepParticle randT randP ⟨0, 0, size, pal, "sphere"⟩ ⟨hx0, hy0, false⟩ 0 count i p).vx,
     (stepParticle randT randP ⟨0, 0, size, pal, "sphere"⟩ ⟨hx0, hy0, false⟩ 0 count i p).x -
        (sphereTarget i count).x) =
      Lstep (p.baseX - (sphereTarget i count).x, p.vx, p.x - (sphereTarget i count).x) ∧
    ((stepParticle randT randP ⟨0, 0, size, pal, "sphere"⟩ ⟨hx0, hy0, false⟩ 0 count i
          p).baseY - (sphereTarget i count).y,
     (stepParticle randT randP ⟨0, 0, size, pal, "sphere"⟩ ⟨hx0, hy0, false⟩ 0 count i p).vy,
     (stepParticle randT randP ⟨0, 0, size, pal, "sphere"⟩ ⟨hx0, hy0, false⟩ 0 count i p).y -
        (sphereTarget i count).y) =
      Lstep (p.baseY - (sphereTarget i count).y, p.vy, p.y - (sphereTarget i count).y) ∧
    ((stepParticle randT randP ⟨0, 0, size, pal, "sphere"⟩ ⟨hx0, hy0, false⟩ 0 count i
          p).baseZ - (sphereTarget i count).z,
     (stepParticle randT randP ⟨0, 0, size, pal, "sphere"⟩ ⟨hx0, hy0, false⟩ 0 count i p).vz,
     (stepParticle randT randP ⟨0, 0, size, pal, "sphere"⟩ ⟨hx0, hy0, false⟩ 0 count i p).z -
        (sphereTarget i count).z) =
      Lstep (p.baseZ - (sphereTarget i count).z, p.vz, p.z - (sphereTarget i count).z) := by
  refine ⟨?_, ?_, ?_, ?_⟩ <;>
    simp only [stepParticle, getTargetPosition, morphStep, simpleNoise, sphereTarget, Lstep] <;>
    simp [Prod.mk.injEq] <;>
    refine ⟨by ring, by ring, by ring⟩

/-- Iterating the idle frame: after `k` frames the per-axis state (base
offset, velocity, position offset) is `LiterN k` of the initial one. -/
theorem stepN_idle_sphere (randT : ℕ → ℕ → ℝ) (randP : ℕ → ℝ) (size : ℝ)
    (pal : List String) (hx0 hy0 : ℝ) (count i : ℕ) (k : ℕ) (p : Particle) :
    ((stepN randT randP ⟨0, 0, size, pal, "sphere"⟩ ⟨hx0, hy0, false⟩ 0 count i k p).baseX -
        (sphereTarget i count).x,
     (stepN randT randP ⟨0, 0, size, pal, "sphere"⟩ ⟨hx0, hy0, false⟩ 0 count i k p).vx,
     (stepN randT randP ⟨0, 0, size, pal, "sphere"⟩ ⟨hx0, hy0, false⟩ 0 count i k p).x -
        (sphereTarget i count).x) =
      LiterN k (p.baseX - (sphereTarget i count).x, p.vx, p.x - (sphereTarget i count).x) ∧
    ((stepN randT randP ⟨0, 0, size, pal, "sphere"⟩ ⟨hx0, hy0, false⟩ 0 count i k p).baseY -
        (sphereTarget i count).y,
     (stepN randT randP ⟨0, 0, size, pal, "sphere"⟩ ⟨hx0, hy0, false⟩ 0 count i k p).vy,
     (stepN randT randP ⟨0, 0, size, pal, "sphere"⟩ ⟨hx0, hy0, false⟩ 0 count i k p).y -
        (sphereTarget i count).y) =
      LiterN k (p.baseY - (sphereTarget i count).y, p.vy, p.y - (sphereTarget i count).y) ∧
    ((stepN randT randP ⟨0, 0, size, pal, "sphere"⟩ ⟨hx0, hy0, false⟩ 0 count i k p).baseZ -
        (sphereTarget i count).z,
     (stepN randT randP ⟨0, 0, size, pal, "sphere"⟩ ⟨hx0, hy0, false⟩ 0 count i k p).vz,
     (stepN randT randP ⟨0, 0, size, pal, "sphere"⟩ ⟨hx0, hy0, false⟩ 0 count i k p).z -
        (sphereTarget i count).z) =
      LiterN k (p.baseZ - (sphereTarget i count).z, p.vz, p.z - (sphereTarget i count).z) := by
  induction k with
  | zero => exact ⟨rfl, rfl, rfl⟩
  | succ k ih =>
    obtain ⟨ihx, ihy, ihz⟩ := ih
    obtain ⟨-, hsx, hsy, hsz⟩ := stepParticle_idle_sphere (randT k) (randP k) size pal hx0 hy0
      count i (stepN randT randP ⟨0, 0, size, pal, "sphere"⟩ ⟨hx0, hy0, false⟩ 0 count i k p)
    exact ⟨by rw [show stepN randT randP ⟨0, 0, size, pal, "sphere"⟩ ⟨hx0, hy0, false⟩ 0 count i
        (k + 1) p = stepParticle (randT k) (randP k) ⟨0, 0, size, pal, "sphere"⟩
        ⟨hx0, hy0, false⟩ 0 count i (stepN randT randP ⟨0, 0, size, pal, "sphere"⟩
        ⟨hx0, hy0, false⟩ 0 count i k p) from rfl, hsx, ihx]; rfl,
      by rw [show stepN randT randP ⟨0, 0, size, pal, "sphere"⟩ ⟨hx0, hy0, false⟩ 0 count i
        (k + 1) p = stepParticle (randT k) (randP k) ⟨0, 0, size, pal, "sphere"⟩
        ⟨hx0, hy0, false⟩ 0 count i (stepN randT randP ⟨0, 0, size, pal, "sphere"⟩
        ⟨hx0, hy0, false⟩ 0 count i k p) from rfl, hsy, ihy]; rfl,
      by rw [show stepN randT randP ⟨0, 0, size, pal, "sphere"⟩ ⟨hx0, hy0, false⟩ 0 count i
        (k + 1) p = stepParticle (randT k) (randP k) ⟨0, 0, size, pal, "sphere"⟩
        ⟨hx0, hy0, false⟩ 0 count i (stepN randT randP ⟨0, 0, size, pal, "sphere"⟩
        ⟨hx0, hy0, false⟩ 0 count i k p) from rfl, hsz, ihz]; rfl⟩

/-- The sphere target has each component within `[-10, 10]` and squared
magnitude exactly 100. -/
theorem sphereTarget_bounds (i count : ℕ) :
    |(sphereTarget i count).x| ≤ 10 ∧ |(sphereTarget i count).y| ≤ 10 ∧
    |(sphereTarget i count).z| ≤ 10 ∧
    (sphereTarget i count).x ^ 2 + (sphereTarget i count).y ^ 2 +
      (sphereTarget i count).z ^ 2 = 100 := by
  refine ⟨?_, ?_, ?_, ?_⟩
  · simp only [sphereTarget, setFromSphericalCoords]
    rw [abs_mul, abs_mul, show |(10 : ℝ)| = 10 from by norm_num]
    nlinarith [Real.abs_sin_le_one (Real.arccos (-1 + (2 * (i : ℝ)) / (count : ℝ))),
      Real.abs_sin_le_one (Real.sqrt ((count : ℝ) * Real.pi) *
        Real.arccos (-1 + (2 * (i : ℝ)) / (count : ℝ))),
      abs_nonneg (Real.sin (Real.arccos (-1 + (2 * (i : ℝ)) / (count : ℝ)))),
      abs_nonneg (Real.sin (Real.sqrt ((count : ℝ) * Real.pi) *
        Real.arccos (-1 + (2 * (i : ℝ)) / (count : ℝ))))]
  · simp only [sphereTarget, setFromSphericalCoords]
    rw [abs_mul, show |(10 : ℝ)| = 10 from by norm_num]
    nlinarith [Real.abs_cos_le_one (Real.arccos (-1 + (2 * (i : ℝ)) / (count : ℝ))),
      abs_nonneg (Real.cos (Real.arccos (-1 + (2 * (i : ℝ)) / (count : ℝ))))]
  · simp only [sphereTarget, setFromSphericalCoords]
    rw [abs_mul, abs_mul, show |(10 : ℝ)| = 10 from by norm_num]
    nlinarith [Real.abs_sin_le_one (Real.arccos (-1 + (2 * (i : ℝ)) / (count : ℝ))),
      Real.abs_cos_le_one (Real.sqrt ((count : ℝ) * Real.pi) *
        Real.arccos (-1 + (2 * (i : ℝ)) / (count : ℝ))),
      abs_nonneg (Real.sin (Real.arccos (-1 + (2 * (i : ℝ)) / (count : ℝ)))),
      abs_nonneg (Real.cos (Real.sqrt ((count : ℝ) * Real.pi) *
        Real.arccos (-1 + (2 * (i : ℝ)) / (count : ℝ))))]
  · have := sph_sq_sum 10 (Real.arccos (-1 + (2 * (i : ℝ)) / (count : ℝ)))
      (Real.sqrt ((count : ℝ) * Real.pi) * Real.arccos (-1 + (2 * (i : ℝ)) / (count : ℝ)))
    simp only [sphereTarget]
    linarith [this]

/-- An axis that starts with base offset at most 20, zero velocity and
position offset at most 35 ends, after 500 idle frames, with position offset
at most `1/1000`. -/
theorem axis_error_bound (b0 e0 : ℝ) (hb : |b0| ≤ 20) (he : |e0| ≤ 35) :
    |(LiterN 500 (b0, 0, e0)).2.2| ≤ 1 / 1000 := by
  have hdec : ((b0, (0 : ℝ), e0) : ℝ × ℝ × ℝ) =
      (b0 * ((1 : ℝ), (0 : ℝ), (0 : ℝ)).1 + e0 * ((0 : ℝ), (0 : ℝ), (1 : ℝ)).1,
       b0 * ((1 : ℝ), (0 : ℝ), (0 : ℝ)).2.1 + e0 * ((0 : ℝ), (0 : ℝ), (1 : ℝ)).2.1,
       b0 * ((1 : ℝ), (0 : ℝ), (0 : ℝ)).2.2 + e0 * ((0 : ℝ), (0 : ℝ), (1 : ℝ)).2.2) := by
    norm_num
  rw [hdec, LiterN_linear 500 b0 e0 ((1 : ℝ), (0 : ℝ), (0 : ℝ)) ((0 : ℝ), (0 : ℝ), (1 : ℝ))]
  have hA := LiterN_int 500 1 0 0
  have hB := LiterN_int 500 0 0 1
  rw [iIter_500_Mv] at hA hB
  push_cast at hA hB
  rw [hA, hB]
  dsimp only
  have hDpos : (0 : ℝ) < 10000 ^ 500 := by positivity
  have hnum : 20 * |((Mv Mp500 (1, 0, 0)).2.2 : ℝ)| + 35 * |((Mv Mp500 (0, 0, 1)).2.2 : ℝ)| ≤
      (10 : ℝ) ^ 1997 := by
    have h := iIter_coeff_bound
    have hc : ((20 * ((Mv Mp500 (1, 0, 0)).2.2).natAbs +
        35 * ((Mv Mp500 (0, 0, 1)).2.2).natAbs : ℕ) : ℝ) ≤ ((10 ^ 1997 : ℕ) : ℝ) :=
      Nat.cast_le.mpr h
    push_cast at hc
    rw [Int.cast_natAbs, Int.cast_natAbs] at hc
    exact_mod_cast hc
  calc |b0 * (((Mv Mp500 (1, 0, 0)).2.2 : ℝ) / 10000 ^ 500) +
        e0 * (((Mv Mp500 (0, 0, 1)).2.2 : ℝ) / 10000 ^ 500)|
      ≤ |b0 * (((Mv Mp500 (1, 0, 0)).2.2 : ℝ) / 10000 ^ 500)| +
        |e0 * (((Mv Mp500 (0, 0, 1)).2.2 : ℝ) / 10000 ^ 500)| := abs_add _ _
    _ = |b0| * (|((Mv Mp500 (1, 0, 0)).2.2 : ℝ)| / 10000 ^ 500) +
        |e0| * (|((Mv Mp500 (0, 0, 1)).2.2 : ℝ)| / 10000 ^ 500) := by
        rw [abs_mul, abs_mul, abs_div, abs_div, abs_of_pos hDpos]
    _ ≤ 20 * (|((Mv Mp500 (1, 0, 0)).2.2 : ℝ)| / 10000 ^ 500) +
        35 * (|((Mv Mp500 (0, 0, 1)).2.2 : ℝ)| / 10000 ^ 500) :=
        add_le_add (mul_le_mul_of_nonneg_right hb (by positivity))
          (mul_le_mul_of_nonneg_right he (by positivity))
    _ = (20 * |((Mv Mp500 (1, 0, 0)).2.2 : ℝ)| +
        35 * |((Mv Mp500 (0, 0, 1)).2.2 : ℝ)|) / 10000 ^ 500 := by ring
    _ ≤ (10 : ℝ) ^ 1997 / 10000 ^ 500 := (div_le_div_right hDpos).mpr hnum
    _ = 1 / 1000 := by
        have h4 : (10000 : ℝ) ^ 500 = 10 ^ 2000 := by
          rw [show (10000 : ℝ) = 10 ^ 4 by norm_num, ← pow_mul]
        have hsplit : (10 : ℝ) ^ 2000 = 10 ^ 1997 * 10 ^ 3 := by
          rw [← pow_add]
        have h0 : (10 : ℝ) ^ 1997 ≠ 0 := by positivity
        rw [h4, hsplit, div_mul_eq_div_div, div_self h0]
        norm_num

set_option maxHeartbeats 1600000 in
/-- C2: with `count = 100`, `shape = sphere`, `chaos = 0`, `speed = 0`,
pointer not detected and `bass = 0` (audio energy zero; treble only affects
the render scale, not the particle state), starting from any positions in
`[-25,25]^3`, base positions in `[-10,10]^3` and zero velocities, after 500
frames every particle's distance from the origin lies within `[9.8, 10.2]`. -/
theorem sphere_end_to_end_distance (randT : ℕ → ℕ → ℝ) (randP : ℕ → ℝ)
    (size : ℝ) (pal : List String) (hx0 hy0 : ℝ) (i : ℕ) (hi : i < 100)
    (p : Particle)
    (hpx : |p.x| ≤ 25) (hpy : |p.y| ≤ 25) (hpz : |p.z| ≤ 25)
    (hbx : |p.baseX| ≤ 10) (hby : |p.baseY| ≤ 10) (hbz : |p.baseZ| ≤ 10)
    (hvx : p.vx = 0) (hvy : p.vy = 0) (hvz : p.vz = 0) :
    9.8 ≤ Real.sqrt
        ((stepN randT randP ⟨0, 0, size, pal, "sphere"⟩ ⟨hx0, hy0, false⟩ 0 100 i 500 p).x ^ 2 +
        (stepN randT randP ⟨0, 0, size, pal, "sphere"⟩ ⟨hx0, hy0, false⟩ 0 100 i 500 p).y ^ 2 +
        (stepN randT randP ⟨0, 0, size, pal, "sphere"⟩ ⟨hx0, hy0, false⟩ 0 100 i 500 p).z ^ 2) ∧
    Real.sqrt
        ((stepN randT randP ⟨0, 0, size, pal, "sphere"⟩ ⟨hx0, hy0, false⟩ 0 100 i 500 p).x ^ 2 +
        (stepN randT randP ⟨0, 0, size, pal, "sphere"⟩ ⟨hx0, hy0, false⟩ 0 100 i 500 p).y ^ 2 +
        (stepN randT randP ⟨0, 0, size, pal, "sphere"⟩ ⟨hx0, hy0, false⟩ 0 100 i 500 p).z ^ 2)
      ≤ 10.2 := by
  obtain ⟨hTx, hTy, hTz, hTsum⟩ := sphereTarget_bounds i 100
  obtain ⟨hqx, hqy, hqz⟩ := stepN_idle_sphere randT randP size pal hx0 hy0 100 i 500 p
  rw [hvx] at hqx
  rw [hvy] at hqy
  rw [hvz] at hqz
  have h3x := congrArg (fun t : ℝ × ℝ × ℝ => t.2.2) hqx
  have h3y := congrArg (fun t : ℝ × ℝ × ℝ => t.2.2) hqy
  have h3z := congrArg (fun t : ℝ × ℝ × ℝ => t.2.2) hqz
  simp only at h3x h3y h3z
  have hb0x : |p.baseX - (sphereTarget i 100).x| ≤ 20 := by
    obtain ⟨u1, u2⟩ := abs_le.mp hbx
    obtain ⟨w1, w2⟩ := abs_le.mp hTx
    exact abs_le.mpr ⟨by linarith, by linarith⟩
  have hb0y : |p.baseY - (sphereTarget i 100).y| ≤ 20 := by
    obtain ⟨u1, u2⟩ := abs_le.mp hby
    obtain ⟨w1, w2⟩ := abs_le.mp hTy
    exact abs_le.mpr ⟨by linarith, by linarith⟩
  have hb0z : |p.baseZ - (sphereTarget i 100).z| ≤ 20 := by
    obtain ⟨u1, u2⟩ := abs_le.mp hbz
    obtain ⟨w1, w2⟩ := abs_le.mp hTz
    exact abs_le.mpr ⟨by linarith, by linarith⟩
  have he0x : |p.x - (sphereTarget i 100).x| ≤ 35 := by
    obtain ⟨u1, u2⟩ := abs_le.mp hpx
    obtain ⟨w1, w2⟩ := abs_le.mp hTx
    exact abs_le.mpr ⟨by linarith, by linarith⟩
  have he0y : |p.y - (sphereTarget i 100).y| ≤ 35 := by
    obtain ⟨u1, u2⟩ := abs_le.mp hpy
    obtain ⟨w1, w2⟩ := abs_le.mp hTy
    exact abs_le.mpr ⟨by linarith, by linarith⟩
  have he0z : |p.z - (sphereTarget i 100).z| ≤ 35 := by
    obtain ⟨u1, u2⟩ := abs_le.mp hpz
    obtain ⟨w1, w2⟩ := abs_le.mp hTz
    exact abs_le.mpr ⟨by linarith, by linarith⟩
  have hex := axis_error_bound (p.baseX - (sphereTarget i 100).x)
    (p.x - (sphereTarget i 100).x) hb0x he0x
  have hey := axis_error_bound (p.baseY - (sphereTarget i 100).y)
    (p.y - (sphereTarget i 100).y) hb0y he0y
  have hez := axis_error_bound (p.baseZ - (sphereTarget i 100).z)
    (p.z - (sphereTarget i 100).z) hb0z he0z
  rw [← h3x] at hex
  rw [← h3y] at hey
  rw [← h3z] at hez
  obtain ⟨hex1, hex2⟩ := abs_le.mp hex
  obtain ⟨hey1, hey2⟩ := abs_le.mp hey
  obtain ⟨hez1, hez2⟩ := abs_le.mp hez
  obtain ⟨hTx1, hTx2⟩ := abs_le.mp hTx
  obtain ⟨hTy1, hTy2⟩ := abs_le.mp hTy
  obtain ⟨hTz1, hTz2⟩ := abs_le.mp hTz
  constructor
  · rw [show (9.8 : ℝ) = Real.sqrt (9.8 ^ 2) from (Real.sqrt_sq (by norm_num)).symm]
    apply Real.sqrt_le_sqrt
    nlinarith [hTsum,
      mul_nonneg (by linarith : (0 : ℝ) ≤ 10 - (sphereTarget i 100).x)
        (by linarith : (0 : ℝ) ≤ 1 / 1000 -
          ((stepN randT randP ⟨0, 0, size, pal, "sphere"⟩ ⟨hx0, hy0, false⟩ 0 100 i 500 p).x -
            (sphereTarget i 100).x)),
      mul_nonneg (by linarith : (0 : ℝ) ≤ (sphereTarget i 100).x + 10)
        (by linarith : (0 : ℝ) ≤ 1 / 1000 -
          ((stepN randT randP ⟨0, 0, size, pal, "sphere"⟩ ⟨hx0, hy0, false⟩ 0 100 i 500 p).x -
            (sphereTarget i 100).x)),
      mul_nonneg (by linarith : (0 : ℝ) ≤ 10 - (sphereTarget i 100).y)
        (by linarith : (0 : ℝ) ≤ 1 / 1000 -
          ((stepN randT randP ⟨0, 0, size, pal, "sphere"⟩ ⟨hx0, hy0, false⟩ 0 100 i 500 p).y -
            (sphereTarget i 100).y)),
      mul_nonneg (by linarith : (0 : ℝ) ≤ (sphereTarget i 100).y + 10)
        (by linarith : (0 : ℝ) ≤ 1 / 1000 -
          ((stepN randT randP ⟨0, 0, size, pal, "sphere"⟩ ⟨hx0, hy0, false⟩ 0 100 i 500 p).y -
            (sphereTarget i 100).y)),
      mul_nonneg (by linarith : (0 : ℝ) ≤ 10 - (sphereTarget i 100).z)
        (by linarith : (0 : ℝ) ≤ 1 / 1000 -
          ((stepN randT randP ⟨0, 0, size, pal, "sphere"⟩ ⟨hx0, hy0, false⟩ 0 100 i 500 p).z -
            (sphereTarget i 100).z)),
      mul_nonneg (by linarith : (0 : ℝ) ≤ (sphereTarget i 100).z + 10)
        (by linarith : (0 : ℝ) ≤ 1 / 1000 -
          ((stepN randT randP ⟨0, 0, size, pal, "sphere"⟩ ⟨hx0, hy0, false⟩ 0 100 i 500 p).z -
            (sphereTarget i 100).z)),
      sq_nonneg ((stepN randT randP ⟨0, 0, size, pal, "sphere"⟩ ⟨hx0, hy0, false⟩ 0 100 i 500
          p).x - (sphereTarget i 100).x),
      sq_nonneg ((stepN randT randP ⟨0, 0, size, pal, "sphere"⟩ ⟨hx0, hy0, false⟩ 0 100 i 500
          p).y - (sphereTarget i 100).y),
      sq_nonneg ((stepN randT randP ⟨0, 0, size, pal, "sphere"⟩ ⟨hx0, hy0, false⟩ 0 100 i 500
          p).z - (sphereTarget i 100).z)]
  · rw [show (10.2 : ℝ) = Real.sqrt (10.2 ^ 2) from (Real.sqrt_sq (by norm_num)).symm]
    apply Real.sqrt_le_sqrt
    nlinarith [hTsum,
      mul_nonneg (by linarith : (0 : ℝ) ≤ 10 - (sphereTarget i 100).x)
        (by linarith : (0 : ℝ) ≤
          ((stepN randT randP ⟨0, 0, size, pal, "sphere"⟩ ⟨hx0, hy0, false⟩ 0 100 i 500 p).x -
            (sphereTarget i 100).x) + 1 / 1000),
      mul_nonneg (by linarith : (0 : ℝ) ≤ (sphereTarget i 100).x + 10)
        (by linarith : (0 : ℝ) ≤ 1 / 1000 -
          ((stepN randT randP ⟨0, 0, size, pal, "sphere"⟩ ⟨hx0, hy0, false⟩ 0 100 i 500 p).x -
            (sphereTarget i 100).x)),
      mul_nonneg (by linarith : (0 : ℝ) ≤ 10 - (sphereTarget i 100).y)
        (by linarith : (0 : ℝ) ≤
          ((stepN randT randP ⟨0, 0, size, pal, "sphere"⟩ ⟨hx0, hy0, false⟩ 0 100 i 500 p).y -
            (sphereTarget i 100).y) + 1 / 1000),
      mul_nonneg (by linarith : (0 : ℝ) ≤ (sphereTarget i 100).y + 10)
        (by linarith : (0 : ℝ) ≤ 1 / 1000 -
          ((stepN randT randP ⟨0, 0, size, pal, "sphere"⟩ ⟨hx0, hy0, false⟩ 0 100 i 500 p).y -
            (sphereTarget i 100).y)),
      mul_nonneg (by linarith : (0 : ℝ) ≤ 10 - (sphereTarget i 100).z)
        (by linarith : (0 : ℝ) ≤
          ((stepN randT randP ⟨0, 0, size, pal, "sphere"⟩ ⟨hx0, hy0, false⟩ 0 100 i 500 p).z -
            (sphereTarget i 100).z) + 1 / 1000),
      mul_nonneg (by linarith : (0 : ℝ) ≤ (sphereTarget i 100).z + 10)
        (by linarith : (0 : ℝ) ≤ 1 / 1000 -
          ((stepN randT randP ⟨0, 0, size, pal, "sphere"⟩ ⟨hx0, hy0, false⟩ 0 100 i 500 p).z -
            (sphereTarget i 100).z)),
      mul_nonneg (by linarith : (0 : ℝ) ≤ 1 / 1000 -
          ((stepN randT randP ⟨0, 0, size, pal, "sphere"⟩ ⟨hx0, hy0, false⟩ 0 100 i 500 p).x -
            (sphereTarget i 100).x))
        (by linarith : (0 : ℝ) ≤
          ((stepN randT randP ⟨0, 0, size, pal, "sphere"⟩ ⟨hx0, hy0, false⟩ 0 100 i 500 p).x -
            (sphereTarget i 100).x) + 1 / 1000),
      mul_nonneg (by linarith : (0 : ℝ) ≤ 1 / 1000 -
          ((stepN randT randP ⟨0, 0, size, pal, "sphere"⟩ ⟨hx0, hy0, false⟩ 0 100 i 500 p).y -
            (sphereTarget i 100).y))
        (by linarith : (0 : ℝ) ≤
          ((stepN randT randP ⟨0, 0, size, pal, "sphere"⟩ ⟨hx0, hy0, false⟩ 0 100 i 500 p).y -
            (sphereTarget i 100).y) + 1 / 1000),
      mul_nonneg (by linarith : (0 : ℝ) ≤ 1 / 1000 -
          ((stepN randT randP ⟨0, 0, size, pal, "sphere"⟩ ⟨hx0, hy0, false⟩ 0 100 i 500 p).z -
            (sphereTarget i 100).z))
        (by linarith : (0 : ℝ) ≤
          ((stepN randT randP ⟨0, 0, size, pal, "sphere"⟩ ⟨hx0, hy0, false⟩ 0 100 i 500 p).z -
            (sphereTarget i 100).z) + 1 / 1000)]

/-- Witness for C2 at `i = 0` with the all-zero initial particle. -/
theorem sphere_end_to_end_distance_witness :
    9.8 ≤ Real.sqrt
        ((stepN (fun _ _ => 0) (fun _ => 0) ⟨0, 0, 1, [], "sphere"⟩ ⟨0, 0, false⟩ 0 100 0 500
          ⟨0, 0, 0, 0, 0, 0, 0, 0, 0, 0⟩).x ^ 2 +
        (stepN (fun _ _ => 0) (fun _ => 0) ⟨0, 0, 1, [], "sphere"⟩ ⟨0, 0, false⟩ 0 100 0 500
          ⟨0, 0, 0, 0, 0, 0, 0, 0, 0, 0⟩).y ^ 2 +
        (stepN (fun _ _ => 0) (fun _ => 0) ⟨0, 0, 1, [], "sphere"⟩ ⟨0, 0, false⟩ 0 100 0 500
          ⟨0, 0, 0, 0, 0, 0, 0, 0, 0, 0⟩).z ^ 2) ∧
    Real.sqrt
        ((stepN (fun _ _ => 0) (fun _ => 0) ⟨0, 0, 1, [], "sphere"⟩ ⟨0, 0, false⟩ 0 100 0 500
          ⟨0, 0, 0, 0, 0, 0, 0, 0, 0, 0⟩).x ^ 2 +
        (stepN (fun _ _ => 0) (fun _ => 0) ⟨0, 0, 1, [], "sphere"⟩ ⟨0, 0, false⟩ 0 100 0 500
          ⟨0, 0, 0, 0, 0, 0, 0, 0, 0, 0⟩).y ^ 2 +
        (stepN (fun _ _ => 0) (fun _ => 0) ⟨0, 0, 1, [], "sphere"⟩ ⟨0, 0, false⟩ 0 100 0 500
          ⟨0, 0, 0, 0, 0, 0, 0, 0, 0, 0⟩).z ^ 2) ≤ 10.2 :=
  sphere_end_to_end_distance (fun _ _ => 0) (fun _ => 0) 1 [] 0 0 0 (by norm_num)
    ⟨0, 0, 0, 0, 0, 0, 0, 0, 0, 0⟩ (by norm_num) (by norm_num) (by norm_num)
    (by norm_num) (by norm_num) (by norm_num) rfl rfl rfl
